import Mathlib

/-!
Verification of the Ladybug Hosting v7 control plane: the node-placement
engine (`BotNetServer` in the web server) and the bot lifecycle controller
(`BotManager` in the worker).  JavaScript numbers are embedded as `ℚ` (for
quantities subject to division) or `Int` (timestamps, counters); the Mongo
record store is a `List Bot`; the `Map` of nodes is a `List Node` in
insertion order (ids unique, as for a JS `Map`).  The outbound HTTP probe is
an oracle `String → Option Int`: `some s` is a response with status `s`
(`validateStatus: () => true` accepts every status), `none` is a network
error or 5-second timeout.
-/

namespace Ladybug

/-! ### Node registry (`BotNetServer`) -/

structure Node where
  id : String
  name : String
  region : String
  capacity : ℚ
  activeBots : ℚ
  status : String
  lastPing : Int
  deriving DecidableEq

abbrev Registry := List Node

/-- `server.activeBots / server.capacity` from `assignBot`. -/
def nodeLoad (n : Node) : ℚ := n.activeBots / n.capacity

/-- `server.status === 'online'`. -/
def isOnline (n : Node) : Bool := n.status == "online"

/-- The running accumulator of `assignBot`'s `for ... of` loop:
`none` models `bestServer = null, minLoad = Infinity`; `some (id, m)` models
`bestServer = id, minLoad = m`.  `loadRatio < Infinity` holds for every
finite ratio, hence the `none` case is `true`. -/
def betterThan (n : Node) : Option (String × ℚ) → Bool
  | none => true
  | some p => decide (nodeLoad n < p.2)

/-- The `for (const [serverId, server] of this.servers)` loop of
`assignBot`: `if (loadRatio < minLoad && server.status === 'online')`
replaces the accumulator. -/
def assignLoop : Registry → Option (String × ℚ) → Option (String × ℚ)
  | [], acc => acc
  | n :: rest, acc =>
      if betterThan n acc && isOnline n
      then assignLoop rest (some (n.id, nodeLoad n))
      else assignLoop rest acc

/-- `this.servers.get(bestServer).activeBots++` — a JS `Map` holds one entry
per key, so updating the first (unique) entry with the given id. -/
def bumpActive (sid : String) : Registry → Registry
  | [] => []
  | n :: rest =>
      if n.id == sid
      then { n with activeBots := n.activeBots + 1 } :: rest
      else n :: bumpActive sid rest

/-- `BotNetServer.assignBot`: pick the best server, increment its counter,
return its id; `null` (here `none`) when no online server exists. -/
def assignBot (reg : Registry) : Option String × Registry :=
  match assignLoop reg none with
  | some p => (some p.1, bumpActive p.1 reg)
  | none => (none, reg)

/-- `BotNetServer.releaseBot`: `if (this.servers.has(serverId))` then
`this.servers.get(serverId).activeBots--` — a plain decrement, no clamping. -/
def releaseBot (reg : Registry) (sid : String) : Registry :=
  match reg with
  | [] => []
  | n :: rest =>
      if n.id == sid
      then { n with activeBots := n.activeBots - 1 } :: rest
      else n :: releaseBot rest sid

/-- `BotNetServer.initializeServers`: the default pool of three
capacity-100 online nodes (`lastPing: Date.now()`). -/
def initialServers (now : Int) : Registry :=
  [ { id := "server-1", name := "Ladybug Node Alpha", region := "us-east",
      capacity := 100, activeBots := 0, status := "online", lastPing := now },
    { id := "server-2", name := "Ladybug Node Beta", region := "us-west",
      capacity := 100, activeBots := 0, status := "online", lastPing := now },
    { id := "server-3", name := "Ladybug Node Gamma", region := "eu-west",
      capacity := 100, activeBots := 0, status := "online", lastPing := now } ]

/-- A registry operation issued by callers. -/
inductive RegOp where
  | assign
  | release (sid : String)
  deriving DecidableEq

def applyOp (reg : Registry) : RegOp → Registry
  | .assign => (assignBot reg).2
  | .release sid => releaseBot reg sid

def runOps (reg : Registry) : List RegOp → Registry
  | [] => reg
  | op :: rest => runOps (applyOp reg op) rest

/-- A release is matched when every node carrying the released id still has a
whole slot to give back (`activeBots ≥ 1`) at that moment. -/
def matchedRelease (reg : Registry) (sid : String) : Bool :=
  reg.all (fun n => !(n.id == sid) || decide (1 ≤ n.activeBots))

/-- A trace is safe when every release in it is matched in the state where it
executes. -/
def safeTrace (reg : Registry) : List RegOp → Bool
  | [] => true
  | .assign :: rest => safeTrace (applyOp reg .assign) rest
  | .release sid :: rest =>
      matchedRelease reg sid && safeTrace (applyOp reg (.release sid)) rest

/-! ### Bot records (`BotSchema`) -/

structure BotConfig where
  targetUrl : Option String
  deriving DecidableEq

structure Metrics where
  uptime : ℚ
  requests : Int
  errors : Int
  deriving DecidableEq

structure Bot where
  id : String
  name : String
  type : String
  status : String
  serverId : String
  config : Option BotConfig
  createdAt : Int
  lastActive : Int
  metrics : Metrics
  deriving DecidableEq

/-! ### Health evaluator (`BotManager.checkBotHealth` and friends) -/

/-- The `timeout: 5000` option of the axios probe in `checkWebBot`. -/
def webProbeTimeoutMs : Int := 5000

/-- `checkDiscordBot`: healthy iff active within the last 2 minutes. -/
def checkDiscordBot (now : Int) (b : Bot) : Bool :=
  decide (now - b.lastActive < 2 * 60 * 1000)

/-- `checkTelegramBot`: healthy iff active within the last 2 minutes. -/
def checkTelegramBot (now : Int) (b : Bot) : Bool :=
  decide (now - b.lastActive < 2 * 60 * 1000)

/-- The url the code would probe: `bot.config && bot.config.targetUrl` is
truthy exactly when a config with a nonempty `targetUrl` string is present
(the empty string is falsy in JS). -/
def webProbeUrls (b : Bot) : List String :=
  match b.config with
  | some cfg =>
      match cfg.targetUrl with
      | some url => if url = "" then [] else [url]
      | none => []
  | none => []

/-- `checkWebBot`: probe `config.targetUrl` when truthy and require status
`< 500`; an axios failure (network error or timeout) is unhealthy; with no
truthy url the bot is healthy with no probe performed. -/
def checkWebBot (probe : String → Option Int) (b : Bot) : Bool :=
  match b.config with
  | some cfg =>
      match cfg.targetUrl with
      | some url =>
          if url = "" then true
          else
            match probe url with
            | some s => decide (s < 500)
            | none => false
      | none => true
  | none => true

/-- `checkMonitorBot`: healthy iff fewer than 3 recorded errors. -/
def checkMonitorBot (b : Bot) : Bool :=
  decide (b.metrics.errors < 3)

/-- `checkCustomBot`: the default — healthy iff active within 5 minutes. -/
def checkCustomBot (now : Int) (b : Bot) : Bool :=
  decide (now - b.lastActive < 5 * 60 * 1000)

/-- `checkBotHealth`: the `switch (bot.type)` dispatch.  None of the branch
functions throws (the web probe catches internally), so the surrounding
`try/catch` never fires. -/
def checkBotHealth (probe : String → Option Int) (now : Int) (b : Bot) : Bool :=
  if b.type == "discord" then checkDiscordBot now b
  else if b.type == "telegram" then checkTelegramBot now b
  else if b.type == "web" then checkWebBot probe b
  else if b.type == "monitor" then checkMonitorBot b
  else checkCustomBot now b

/-! ### Heartbeat sweep (`BotManager.performHeartbeatCheck`) -/

/-- `this.heartbeatInterval` default: 30000 ms. -/
def defaultHeartbeatIntervalMs : ℚ := 30000

/-- One iteration of the heartbeat loop on a bot (the loop only visits bots
returned by `Bot.find({ status: 'running' })`; others are untouched).
Unhealthy: status `error`, `metrics.errors += 1`, saved.  Healthy:
`lastActive = new Date()`, `metrics.uptime += this.heartbeatInterval / 1000`,
saved. -/
def heartbeatUpdate (probe : String → Option Int) (now : Int)
    (intervalMs : ℚ) (b : Bot) : Bot :=
  if b.status == "running" then
    if checkBotHealth probe now b then
      { b with lastActive := now,
               metrics := { b.metrics with
                              uptime := b.metrics.uptime + intervalMs / 1000 } }
    else
      { b with status := "error",
               metrics := { b.metrics with errors := b.metrics.errors + 1 } }
  else b

/-- The `setTimeout(() => this.restartBot(bot), 5000)` scheduled for each
unhealthy running bot: (bot id, delay in ms). -/
def heartbeatSchedule (probe : String → Option Int) (now : Int) (b : Bot) :
    Option (String × Int) :=
  if b.status == "running" && !(checkBotHealth probe now b)
  then some (b.id, 5000) else none

/-- `performHeartbeatCheck`: the loop body is independent per bot, so the
sweep is the pointwise update plus the collected restart timers. -/
def performHeartbeatCheck (probe : String → Option Int) (now : Int)
    (intervalMs : ℚ) (store : List Bot) : List Bot × List (String × Int) :=
  (store.map (heartbeatUpdate probe now intervalMs),
   store.filterMap (heartbeatSchedule probe now))

/-! ### Aggregate health sweep (`BotManager.performHealthCheck`) -/

structure HealthStats where
  total : Nat
  running : Nat
  error : Nat
  idle : Nat
  starting : Nat
  deriving DecidableEq

def computeStats (store : List Bot) : HealthStats :=
  { total := store.length
    running := (store.filter (fun b => b.status == "running")).length
    error := (store.filter (fun b => b.status == "error")).length
    idle := (store.filter (fun b => b.status == "idle")).length
    starting := (store.filter (fun b => b.status == "starting")).length }

/-- `stats.error / stats.total`.  In JS this is float division and
`0/0 = NaN`, with `NaN > 0.5` false; in `ℚ`, `0/0 = 0`, also not `> 1/2`,
and since `error ≤ total < 2^53` the two comparisons agree everywhere. -/
def errorShare (s : HealthStats) : ℚ := (s.error : ℚ) / (s.total : ℚ)

structure HealthSweepResult where
  stats : HealthStats
  alertSent : Bool
  metricsSent : Bool
  deriving DecidableEq

/-- `performHealthCheck`: compute the stats, alert iff
`errorRate > 0.5`, and always `sendMetrics(stats)`. -/
def performHealthCheck (store : List Bot) : HealthSweepResult :=
  let stats := computeStats store
  { stats := stats
    alertSent := decide (errorShare stats > 1 / 2)
    metricsSent := true }

/-! ### Orphan cleanup sweep (`BotManager.cleanupOrphanedBots`) -/

/-- The Mongo filter `{ lastActive: { $lt: now − 24h }, status: { $in:
['error', 'idle'] } }`. -/
def isOrphaned (now : Int) (b : Bot) : Bool :=
  decide (b.lastActive < now - 24 * 60 * 60 * 1000) &&
    (b.status == "error" || b.status == "idle")

/-- `cleanupOrphanedBots`: each matching bot is stopped (`stopBot` saves it
with status `stopped`) and then deleted by `Bot.findByIdAndDelete`, so the
net store effect is removal.  The worker holds no reference to the node
registry (`botNetServer` lives in the web-server process), so the registry
passes through untouched: no `releaseBot` call occurs. -/
def cleanupOrphanedBots (now : Int) (store : List Bot) (reg : Registry) :
    List Bot × Registry :=
  (store.filter (fun b => !(isOrphaned now b)), reg)

/-! ### Restart sweep (`BotManager.restartFailedBots` / `restartBot`) -/

/-- The Mongo filter `{ status: 'error', 'metrics.errors': { $lt: 5 } }`. -/
def restartEligible (b : Bot) : Bool :=
  b.status == "error" && decide (b.metrics.errors < 5)

/-- First step of `restartBot`: `bot.status = 'starting'; await bot.save()`. -/
def restartBotBegin (b : Bot) : Bot := { b with status := "starting" }

/-- The delayed (3000 ms) completion of `restartBot`:
`bot.status = 'running'; bot.lastActive = new Date(); await bot.save()`. -/
def restartBotComplete (now : Int) (b : Bot) : Bot :=
  { b with status := "running", lastActive := now }

/-- Applied to every bot of the store by the restart sweep. -/
def restartStep (b : Bot) : Bot :=
  if restartEligible b then restartBotBegin b else b

/-- `restartFailedBots`: begin a restart for every eligible bot; the delayed
completions are the returned id list. -/
def restartFailedBots (store : List Bot) : List Bot × List String :=
  (store.map restartStep,
   store.filterMap (fun b => if restartEligible b then some b.id else none))

/-- Outcome of `restartBot`'s synchronous part given whether the first
`bot.save()` succeeds: a throw is caught and the catch block commits
`status = 'error'; metrics.errors += 1`. -/
inductive RestartOutcome where
  | scheduled (b : Bot)
  | degraded (b : Bot)
  deriving DecidableEq

def restartBotWithSave (beginSaveOk : Bool) (b : Bot) : RestartOutcome :=
  if beginSaveOk then .scheduled { b with status := "starting" }
  else .degraded { b with status := "error",
                          metrics := { b.metrics with
                                         errors := b.metrics.errors + 1 } }

/-- Outcome of the delayed completion given whether its `bot.save()`
succeeds.  The `setTimeout(async () => ...)` callback sits outside the
`try/catch` of `restartBot`, so a rejected save is an unhandled rejection and
the process-level handler runs `process.exit(1)`. -/
inductive CompletionOutcome where
  | committed (b : Bot)
  | processExited
  deriving DecidableEq

def restartCompletionWithSave (saveOk : Bool) (now : Int) (b : Bot) :
    CompletionOutcome :=
  if saveOk then .committed { b with status := "running", lastActive := now }
  else .processExited

/-- `bot.save()` as a store write: replace every entry with the document's
id (ids are unique in Mongo, so at most one).  Absent id: the write matches
nothing. -/
def saveById (store : List Bot) (b : Bot) : List Bot :=
  store.map (fun x => if x.id == b.id then b else x)

/-- The completion step operates on the in-memory document captured when the
restart began — there is no re-read of the store and no abort check. -/
def restartCompletionStep (now : Int) (cached : Bot) (store : List Bot) :
    List Bot :=
  saveById store { cached with status := "running", lastActive := now }

/-! ### Concrete records used to instantiate the theorems -/

def exampleMetrics : Metrics := { uptime := 0, requests := 0, errors := 0 }

def exampleWebBot : Bot :=
  { id := "bot-web", name := "Web Bot", type := "web", status := "running",
    serverId := "server-1", config := some { targetUrl := some "https://x.example" },
    createdAt := 0, lastActive := 0, metrics := exampleMetrics }

def exampleWebBotNoUrl : Bot :=
  { id := "bot-web-2", name := "Web Bot 2", type := "web", status := "running",
    serverId := "server-1", config := none,
    createdAt := 0, lastActive := 0, metrics := exampleMetrics }

def staleDiscordBot : Bot :=
  { id := "bot-d", name := "Old Bot", type := "discord", status := "running",
    serverId := "server-1", config := none,
    createdAt := 0, lastActive := -600000, metrics := exampleMetrics }

def errorBotLow : Bot :=
  { id := "bot-e2", name := "Failed Bot", type := "discord", status := "error",
    serverId := "server-1", config := none,
    createdAt := 0, lastActive := 0,
    metrics := { uptime := 0, requests := 0, errors := 2 } }

def errorBotHigh : Bot :=
  { id := "bot-e10", name := "High Error Bot", type := "discord",
    status := "error", serverId := "server-1", config := none,
    createdAt := 0, lastActive := 0,
    metrics := { uptime := 0, requests := 0, errors := 10 } }

/-- An idle bot whose `lastActive` is 25 hours before `now = 100000000`. -/
def orphanIdleBot : Bot :=
  { id := "bot-o", name := "Orphaned Bot", type := "discord", status := "idle",
    serverId := "server-1", config := none,
    createdAt := 0, lastActive := 10000000, metrics := exampleMetrics }

/-- An idle bot whose `lastActive` is only 1 hour before `now = 100000000`. -/
def freshIdleBot : Bot :=
  { id := "bot-f", name := "Recent Bot", type := "discord", status := "idle",
    serverId := "server-1", config := none,
    createdAt := 0, lastActive := 96400000, metrics := exampleMetrics }

/-- A single-node registry whose node carries the orphan's slot. -/
def orphanRegistry : Registry :=
  [ { id := "server-1", name := "Ladybug Node Alpha", region := "us-east",
      capacity := 100, activeBots := 1, status := "online", lastPing := 0 } ]

def restartingBot : Bot :=
  { id := "bot-r", name := "Restarting Bot", type := "discord",
    status := "starting", serverId := "server-1", config := none,
    createdAt := 0, lastActive := 0, metrics := exampleMetrics }

/-- The same bot after an explicit stop during the restart delay. -/
def stoppedDuringDelay : Bot := { restartingBot with status := "stopped" }

end Ladybug

namespace Ladybug

/-! ## Helper lemmas about the placement loop -/

theorem assignLoop_cons (n : Node) (rest : Registry) (acc : Option (String × ℚ)) :
    assignLoop (n :: rest) acc =
      if betterThan n acc && isOnline n
      then assignLoop rest (some (n.id, nodeLoad n))
      else assignLoop rest acc := rfl

/-- Running the loop from a non-null accumulator either keeps it (when it is
at most every online load in the remainder) or lands on the first online node
that realizes the strictly smaller minimum. -/
theorem assignLoop_some_spec (rest : Registry) (a : String × ℚ) :
    (assignLoop rest (some a) = some a ∧
       ∀ m ∈ rest, isOnline m = true → a.2 ≤ nodeLoad m) ∨
    (∃ l₁ n l₂, rest = l₁ ++ n :: l₂ ∧ isOnline n = true ∧ nodeLoad n < a.2 ∧
       (∀ m ∈ l₁, isOnline m = true → nodeLoad n < nodeLoad m) ∧
       (∀ m ∈ l₂, isOnline m = true → nodeLoad n ≤ nodeLoad m) ∧
       assignLoop rest (some a) = some (n.id, nodeLoad n)) := by
  induction rest generalizing a with
  | nil => exact Or.inl ⟨rfl, by simp⟩
  | cons h t ih =>
    rw [assignLoop_cons]
    by_cases hlt : nodeLoad h < a.2
    · by_cases hon : isOnline h = true
      · have hcond : (betterThan h (some a) && isOnline h) = true := by
          simp [betterThan, hlt, hon]
        rw [if_pos hcond]
        rcases ih (h.id, nodeLoad h) with ⟨heq, hmin⟩ |
          ⟨l₁, n, l₂, ht, hon', hlt', hl₁, hl₂, hres⟩
        · exact Or.inr ⟨[], h, t, rfl, hon, hlt, by simp, hmin, heq⟩
        · refine Or.inr ⟨h :: l₁, n, l₂, by simp [ht], hon', lt_trans hlt' hlt,
            ?_, hl₂, hres⟩
          intro m hm
          rcases List.mem_cons.mp hm with rfl | hm'
          · exact fun _ => hlt'
          · exact hl₁ m hm'
      · have hof : isOnline h = false := by simpa using hon
        have hcond : (betterThan h (some a) && isOnline h) = false := by
          simp [hof]
        rw [if_neg (by simp [hcond])]
        rcases ih a with ⟨heq, hmin⟩ | ⟨l₁, n, l₂, ht, hon', hlt', hl₁, hl₂, hres⟩
        · refine Or.inl ⟨heq, ?_⟩
          intro m hm
          rcases List.mem_cons.mp hm with rfl | hm'
          · intro hmon; rw [hof] at hmon; cases hmon
          · exact hmin m hm'
        · refine Or.inr ⟨h :: l₁, n, l₂, by simp [ht], hon', hlt', ?_, hl₂, hres⟩
          intro m hm
          rcases List.mem_cons.mp hm with rfl | hm'
          · intro hmon; rw [hof] at hmon; cases hmon
          · exact hl₁ m hm'
    · have hcond : (betterThan h (some a) && isOnline h) = false := by
        simp [betterThan, hlt]
      rw [if_neg (by simp [hcond])]
      have hle : a.2 ≤ nodeLoad h := not_lt.mp hlt
      rcases ih a with ⟨heq, hmin⟩ | ⟨l₁, n, l₂, ht, hon', hlt', hl₁, hl₂, hres⟩
      · refine Or.inl ⟨heq, ?_⟩
        intro m hm
        rcases List.mem_cons.mp hm with rfl | hm'
        · exact fun _ => hle
        · exact hmin m hm'
      · refine Or.inr ⟨h :: l₁, n, l₂, by simp [ht], hon', hlt', ?_, hl₂, hres⟩
        intro m hm
        rcases List.mem_cons.mp hm with rfl | hm'
        · exact fun _ => lt_of_lt_of_le hlt' hle
        · exact hl₁ m hm'

/-- Running the loop from the initial `null`/`Infinity` accumulator: either
no node is online and nothing is selected, or the first online node
realizing the minimum load is. -/
theorem assignLoop_none_spec (reg : Registry) :
    (assignLoop reg none = none ∧ ∀ m ∈ reg, isOnline m = false) ∨
    (∃ l₁ n l₂, reg = l₁ ++ n :: l₂ ∧ isOnline n = true ∧
       (∀ m ∈ l₁, isOnline m = true → nodeLoad n < nodeLoad m) ∧
       (∀ m ∈ l₂, isOnline m = true → nodeLoad n ≤ nodeLoad m) ∧
       assignLoop reg none = some (n.id, nodeLoad n)) := by
  induction reg with
  | nil => exact Or.inl ⟨rfl, by simp⟩
  | cons h t ih =>
    rw [assignLoop_cons]
    by_cases hon : isOnline h = true
    · have hcond : (betterThan h none && isOnline h) = true := by
        simp [betterThan, hon]
      rw [if_pos hcond]
      rcases assignLoop_some_spec t (h.id, nodeLoad h) with ⟨heq, hmin⟩ |
        ⟨l₁, n, l₂, ht, hon', hlt', hl₁, hl₂, hres⟩
      · exact Or.inr ⟨[], h, t, rfl, hon, by simp, hmin, heq⟩
      · refine Or.inr ⟨h :: l₁, n, l₂, by simp [ht], hon', ?_, hl₂, hres⟩
        intro m hm
        rcases List.mem_cons.mp hm with rfl | hm'
        · exact fun _ => hlt'
        · exact hl₁ m hm'
    · have hof : isOnline h = false := by simpa using hon
      have hcond : (betterThan h none && isOnline h) = false := by simp [hof]
      rw [if_neg (by simp [hcond])]
      rcases ih with ⟨heq, hall⟩ | ⟨l₁, n, l₂, ht, hon', hl₁, hl₂, hres⟩
      · refine Or.inl ⟨heq, ?_⟩
        intro m hm
        rcases List.mem_cons.mp hm with rfl | hm'
        · exact hof
        · exact hall m hm'
      · refine Or.inr ⟨h :: l₁, n, l₂, by simp [ht], hon', ?_, hl₂, hres⟩
        intro m hm
        rcases List.mem_cons.mp hm with rfl | hm'
        · intro hmon; rw [hof] at hmon; cases hmon
        · exact hl₁ m hm'

theorem bumpActive_append (l₁ : Registry) (n : Node) (l₂ : Registry)
    (sid : String) (hl₁ : ∀ m ∈ l₁, m.id ≠ sid) (hn : n.id = sid) :
    bumpActive sid (l₁ ++ n :: l₂)
      = l₁ ++ { n with activeBots := n.activeBots + 1 } :: l₂ := by
  induction l₁ with
  | nil => simp [bumpActive, hn]
  | cons p ps ih =>
    have hp : (p.id == sid) = false := by
      simpa using hl₁ p (List.mem_cons_self p ps)
    simp [bumpActive, hp, ih (fun m hm => hl₁ m (List.mem_cons_of_mem p hm))]

/-- C1: `assign()` returns `none` exactly when no node is online (in
particular it never refuses for lack of spare capacity); on success it
returns the id of the first-encountered node of minimum `activeBots/capacity`
ratio among online nodes and increments exactly that node's `activeBots` by
one, leaving every other node untouched. -/
theorem C1_assignBot_spec (reg : Registry) (hnd : (reg.map Node.id).Nodup) :
    ((assignBot reg).1 = none ↔ ∀ m ∈ reg, isOnline m = false) ∧
    (∀ sid, (assignBot reg).1 = some sid →
       ∃ l₁ n l₂, reg = l₁ ++ n :: l₂ ∧ n.id = sid ∧ isOnline n = true ∧
         (∀ m ∈ l₁, isOnline m = true → nodeLoad n < nodeLoad m) ∧
         (∀ m ∈ reg, isOnline m = true → nodeLoad n ≤ nodeLoad m) ∧
         (assignBot reg).2
           = l₁ ++ { n with activeBots := n.activeBots + 1 } :: l₂) := by
  rcases assignLoop_none_spec reg with ⟨heq, hall⟩ |
    ⟨l₁, n, l₂, ht, hon, hl₁, hl₂, hres⟩
  · constructor
    · exact ⟨fun _ => hall, fun _ => by simp [assignBot, heq]⟩
    · intro sid hsid
      simp [assignBot, heq] at hsid
  · constructor
    · constructor
      · intro hnone
        simp [assignBot, hres] at hnone
      · intro hall
        have hmem : n ∈ reg := by
          rw [ht]; exact List.mem_append_right _ (List.mem_cons_self n l₂)
        have := hall n hmem
        rw [hon] at this
        cases this
    · intro sid hsid
      have hid : n.id = sid := by
        simp only [assignBot, hres, Option.some.injEq] at hsid
        exact hsid
      have hdisj : ∀ m ∈ l₁, m.id ≠ n.id := by
        rw [ht, List.map_append] at hnd
        have h2 := (List.nodup_append.mp hnd).2.2
        intro m hm hmeq
        exact h2 (List.mem_map_of_mem Node.id hm) (by simp [hmeq])
      refine ⟨l₁, n, l₂, ht, hid, hon, hl₁, ?_, ?_⟩
      · intro m hm hmon
        rw [ht] at hm
        rcases List.mem_append.mp hm with hm' | hm'
        · exact le_of_lt (hl₁ m hm' hmon)
        · rcases List.mem_cons.mp hm' with rfl | hm''
          · exact le_refl _
          · exact hl₂ m hm'' hmon
      · simp only [assignBot, hres]
        rw [ht]
        exact bumpActive_append l₁ n l₂ n.id hdisj rfl

/-- Witness for C1 at the default three-node pool. -/
theorem C1_assignBot_spec_witness :
    ∃ l₁ n l₂, initialServers 0 = l₁ ++ n :: l₂ ∧ n.id = "server-1" ∧
      isOnline n = true ∧
      (assignBot (initialServers 0)).2
        = l₁ ++ { n with activeBots := n.activeBots + 1 } :: l₂ := by
  obtain ⟨l₁, n, l₂, h1, h2, h3, _, _, h6⟩ :=
    (C1_assignBot_spec (initialServers 0) (by decide)).2 "server-1"
      (by simp only [assignBot, assignLoop, betterThan, isOnline, nodeLoad,
            initialServers, Rat.div_def, Rat.mul_def, Rat.inv_def]
          decide)
  exact ⟨l₁, n, l₂, h1, h2, h3, h6⟩

end Ladybug

namespace Ladybug

/-! ## C2: release does not clamp -/

theorem bumpActive_nonneg (sid : String) (reg : Registry)
    (h : ∀ n ∈ reg, 0 ≤ n.activeBots) :
    ∀ n ∈ bumpActive sid reg, 0 ≤ n.activeBots := by
  induction reg with
  | nil => intro n hn; cases hn
  | cons p ps ih =>
    intro n hn
    simp only [bumpActive] at hn
    by_cases hp : (p.id == sid) = true
    · rw [if_pos hp] at hn
      rcases List.mem_cons.mp hn with rfl | hn'
      · exact add_nonneg (h p (List.mem_cons_self p ps)) zero_le_one
      · exact h n (List.mem_cons_of_mem p hn')
    · rw [if_neg hp] at hn
      rcases List.mem_cons.mp hn with rfl | hn'
      · exact h n (List.mem_cons_self n ps)
      · exact ih (fun m hm => h m (List.mem_cons_of_mem p hm)) n hn'

theorem releaseBot_nonneg (sid : String) (reg : Registry)
    (h : ∀ n ∈ reg, 0 ≤ n.activeBots)
    (hm : matchedRelease reg sid = true) :
    ∀ n ∈ releaseBot reg sid, 0 ≤ n.activeBots := by
  induction reg with
  | nil => intro n hn; cases hn
  | cons p ps ih =>
    intro n hn
    simp only [releaseBot] at hn
    simp only [matchedRelease, List.all_cons, Bool.and_eq_true] at hm
    by_cases hp : (p.id == sid) = true
    · rw [if_pos hp] at hn
      rcases List.mem_cons.mp hn with rfl | hn'
      · have h1 : 1 ≤ p.activeBots := by
          have := hm.1
          rw [hp] at this
          simpa using this
        exact sub_nonneg.mpr h1
      · exact h n (List.mem_cons_of_mem p hn')
    · rw [if_neg hp] at hn
      rcases List.mem_cons.mp hn with rfl | hn'
      · exact h n (List.mem_cons_self n ps)
      · exact ih (fun m hm' => h m (List.mem_cons_of_mem p hm')) hm.2 n hn'

theorem runOps_nonneg (l₁ : List RegOp) : ∀ (reg : Registry) (l₂ : List RegOp),
    (∀ n ∈ reg, 0 ≤ n.activeBots) → safeTrace reg (l₁ ++ l₂) = true →
    ∀ n ∈ runOps reg l₁, 0 ≤ n.activeBots := by
  induction l₁ with
  | nil =>
    intro reg _ h0 _ n hn
    exact h0 n hn
  | cons op rest ih =>
    intro reg l₂ h0 hs n hn
    cases op with
    | assign =>
      have h0' : ∀ m ∈ (assignBot reg).2, 0 ≤ m.activeBots := by
        rcases hres : assignLoop reg none with _ | p
        · simpa [assignBot, hres] using h0
        · simp only [assignBot, hres]
          exact bumpActive_nonneg p.1 reg h0
      exact ih (applyOp reg .assign) l₂ h0' hs n hn
    | release sid =>
      rw [List.cons_append] at hs
      simp only [safeTrace, Bool.and_eq_true] at hs
      have h0' := releaseBot_nonneg sid reg h0 hs.1
      exact ih (releaseBot reg sid) l₂ h0' hs.2 n hn

/-- C2 counterexample: from the initial registry, the one-call sequence
`release("server-1")` drives that node's `activeBots` to `−1`: the count is
not clamped at zero. -/
theorem C2_counterexample :
    ∃ n ∈ runOps (initialServers 0) [RegOp.release "server-1"],
      n.activeBots < 0 := by
  simp only [runOps, applyOp, releaseBot, initialServers]
  refine ⟨_, List.mem_cons_self _ _, ?_⟩
  show (0 : ℚ) - 1 < 0
  simp only [Rat.sub_def]
  decide

/-- C2 (amended): starting from the initial registry, along any sequence of
`assign`/`release` calls in which every release targets a node that still
holds at least one slot at that moment, every node's `activeBots` stays
nonnegative after every prefix; the unmatched-release counterexample shows
the side condition cannot be dropped, because `releaseBot` never clamps. -/
theorem C2_nonneg_of_matched (now : Int) (ops l₁ l₂ : List RegOp)
    (hs : safeTrace (initialServers now) ops = true)
    (hsplit : ops = l₁ ++ l₂) :
    ∀ n ∈ runOps (initialServers now) l₁, 0 ≤ n.activeBots := by
  subst hsplit
  refine runOps_nonneg l₁ (initialServers now) l₂ ?_ hs
  intro n hn
  simp only [initialServers, List.mem_cons, List.mem_singleton] at hn
  rcases hn with rfl | rfl | rfl | h
  · exact le_refl 0
  · exact le_refl 0
  · exact le_refl 0
  · cases h

/-- Witness for C2 (amended): one assign followed by one matched release
keeps all counts nonnegative. -/
theorem C2_nonneg_of_matched_witness :
    safeTrace (initialServers 0) [RegOp.assign, RegOp.release "server-1"] = true ∧
    ∀ n ∈ runOps (initialServers 0) [RegOp.assign, RegOp.release "server-1"],
      0 ≤ n.activeBots := by
  have hs : safeTrace (initialServers 0)
      [RegOp.assign, RegOp.release "server-1"] = true := by
    simp only [safeTrace, applyOp, assignBot, assignLoop, betterThan, isOnline,
      nodeLoad, initialServers, bumpActive, matchedRelease, releaseBot,
      Rat.div_def, Rat.mul_def, Rat.inv_def, Rat.add_def, Rat.sub_def]
    decide
  exact ⟨hs, C2_nonneg_of_matched 0 _ _ [] hs (List.append_nil _).symm⟩

end Ladybug

namespace Ladybug

/-! ## C3: per-type health dispatch -/

/-- C3: health is decided exactly by the bot's type: discord/telegram —
active within 2 minutes; web (when a probe-able url is configured) — the
probe (a GET with the 5-second `webProbeTimeoutMs`) answers with status
`< 500`, and an exception/timeout is unhealthy; monitor — fewer than 3
recorded errors; any other type — active within 5 minutes. -/
theorem C3_health_dispatch (probe : String → Option Int) (now : Int) (b : Bot) :
    ((b.type = "discord" ∨ b.type = "telegram") →
       (checkBotHealth probe now b = true ↔
          now - b.lastActive < 2 * 60 * 1000)) ∧
    (b.type = "web" →
       ∀ cfg url, b.config = some cfg → cfg.targetUrl = some url → url ≠ "" →
         (checkBotHealth probe now b = true ↔
            ∃ s, probe url = some s ∧ s < 500)) ∧
    (b.type = "monitor" →
       (checkBotHealth probe now b = true ↔ b.metrics.errors < 3)) ∧
    (b.type ∉ (["discord", "telegram", "web", "monitor"] : List String) →
       (checkBotHealth probe now b = true ↔
          now - b.lastActive < 5 * 60 * 1000)) ∧
    webProbeTimeoutMs = 5000 := by
  refine ⟨?_, ?_, ?_, ?_, rfl⟩
  · rintro (h | h) <;>
      simp [checkBotHealth, checkDiscordBot, checkTelegramBot, h]
  · intro h cfg url hcfg hurl hne
    simp only [checkBotHealth, h]
    rcases hp : probe url with _ | s <;>
      simp [checkWebBot, hcfg, hurl, hne, hp]
  · intro h
    simp [checkBotHealth, checkMonitorBot, h]
  · intro h
    simp only [List.mem_cons, List.not_mem_nil, or_false, not_or] at h
    obtain ⟨h1, h2, h3, h4⟩ := h
    simp [checkBotHealth, checkCustomBot, h1, h2, h3, h4]

/-- Witness for C3: a web bot with a configured url and a probe answering
200 is healthy. -/
theorem C3_health_dispatch_witness :
    checkBotHealth (fun _ => some 200) 0 exampleWebBot = true := by
  have h := (C3_health_dispatch (fun _ => some 200) 0 exampleWebBot).2.1 rfl
    { targetUrl := some "https://x.example" } "https://x.example" rfl rfl
    (by decide)
  exact h.mpr ⟨200, rfl, by decide⟩

/-! ## C4: heartbeat sweep -/

/-- C4: in one heartbeat sweep, a running bot failing its health check is
set to status `error` with `metrics.errors` incremented and persisted, and a
restart is scheduled after 5000 ms; a healthy one gets `lastActive = now`
and `metrics.uptime` increased by the interval in seconds (default
`30000 / 1000 = 30`); a running discord/telegram/custom bot 10 minutes
stale fails the check. -/
theorem C4_heartbeat_sweep (probe : String → Option Int) (now : Int)
    (intervalMs : ℚ) (store l₁ l₂ : List Bot) (b : Bot)
    (hsplit : store = l₁ ++ b :: l₂) (hrun : b.status = "running") :
    (checkBotHealth probe now b = false →
       (performHeartbeatCheck probe now intervalMs store).1
         = l₁.map (heartbeatUpdate probe now intervalMs)
           ++ { b with status := "error",
                       metrics := { b.metrics with
                                      errors := b.metrics.errors + 1 } }
             :: l₂.map (heartbeatUpdate probe now intervalMs) ∧
       (b.id, 5000) ∈ (performHeartbeatCheck probe now intervalMs store).2) ∧
    (checkBotHealth probe now b = true →
       (performHeartbeatCheck probe now intervalMs store).1
         = l₁.map (heartbeatUpdate probe now intervalMs)
           ++ { b with lastActive := now,
                       metrics := { b.metrics with
                                      uptime := b.metrics.uptime
                                        + intervalMs / 1000 } }
             :: l₂.map (heartbeatUpdate probe now intervalMs)) ∧
    defaultHeartbeatIntervalMs / 1000 = (30 : ℚ) ∧
    ((b.type = "discord" ∨ b.type = "telegram" ∨
        b.type ∉ (["discord", "telegram", "web", "monitor"] : List String)) →
      now - b.lastActive = 10 * 60 * 1000 →
      checkBotHealth probe now b = false) := by
  subst hsplit
  refine ⟨?_, ?_, ?_, ?_⟩
  · intro hh
    constructor
    · simp [performHeartbeatCheck, heartbeatUpdate, hrun, hh]
    · exact List.mem_filterMap.mpr
        ⟨b, by simp, by simp [heartbeatSchedule, hrun, hh]⟩
  · intro hh
    simp [performHeartbeatCheck, heartbeatUpdate, hrun, hh]
  · simp only [defaultHeartbeatIntervalMs, Rat.div_def, Rat.mul_def,
      Rat.inv_def]
    decide
  · rintro (h | h | h) hdiff
    · simp [checkBotHealth, checkDiscordBot, h, hdiff]
    · simp [checkBotHealth, checkTelegramBot, h, hdiff]
    · simp only [List.mem_cons, List.not_mem_nil, or_false, not_or] at h
      obtain ⟨h1, h2, h3, h4⟩ := h
      simp [checkBotHealth, checkCustomBot, h1, h2, h3, h4, hdiff]

/-- Witness for C4: a running discord bot whose `lastActive` is 10 minutes
in the past is marked `error` with its error counter bumped, and a 5-second
restart is scheduled. -/
theorem C4_heartbeat_sweep_witness :
    (performHeartbeatCheck (fun _ => none) 0 30000 [staleDiscordBot]).1
      = [{ staleDiscordBot with
             status := "error",
             metrics := { staleDiscordBot.metrics with
                            errors := staleDiscordBot.metrics.errors + 1 } }] ∧
    (staleDiscordBot.id, 5000)
      ∈ (performHeartbeatCheck (fun _ => none) 0 30000 [staleDiscordBot]).2 := by
  have h := C4_heartbeat_sweep (fun _ => none) 0 30000 [staleDiscordBot] [] []
    staleDiscordBot rfl rfl
  have hh : checkBotHealth (fun _ => none) 0 staleDiscordBot = false :=
    h.2.2.2 (Or.inl rfl) (by decide)
  obtain ⟨h1, h2⟩ := h.1 hh
  exact ⟨by simpa using h1, h2⟩

/-! ## C5: bounded-retry restart sweep -/

/-- C5: the restart sweep begins a restart (status `starting`, completion to
`running` with `lastActive` refreshed) for exactly the bots with status
`error` and fewer than 5 recorded errors, and leaves an `error` bot at or
above that budget untouched. -/
theorem C5_restart_sweep (store l₁ l₂ : List Bot) (b : Bot) (now : Int)
    (hsplit : store = l₁ ++ b :: l₂) (herr : b.status = "error") :
    (b.metrics.errors < 5 →
       (restartFailedBots store).1
         = l₁.map restartStep ++ { b with status := "starting" }
             :: l₂.map restartStep ∧
       b.id ∈ (restartFailedBots store).2 ∧
       restartBotComplete now { b with status := "starting" }
         = { b with status := "running", lastActive := now }) ∧
    (5 ≤ b.metrics.errors →
       (restartFailedBots store).1
         = l₁.map restartStep ++ b :: l₂.map restartStep) := by
  subst hsplit
  constructor
  · intro hlt
    refine ⟨?_, ?_, rfl⟩
    · simp [restartFailedBots, restartStep, restartEligible, restartBotBegin,
        herr, hlt]
    · exact List.mem_filterMap.mpr
        ⟨b, by simp, by simp [restartEligible, herr, hlt]⟩
  · intro hge
    have h5 : ¬ b.metrics.errors < 5 := not_lt.mpr hge
    simp [restartFailedBots, restartStep, restartEligible, herr, h5]

/-- Witness for C5: the error bot with 2 errors is restarted, the one with
10 errors is left alone. -/
theorem C5_restart_sweep_witness :
    (restartFailedBots [errorBotLow]).1
      = [{ errorBotLow with status := "starting" }] ∧
    errorBotLow.id ∈ (restartFailedBots [errorBotLow]).2 ∧
    (restartFailedBots [errorBotHigh]).1 = [errorBotHigh] := by
  obtain ⟨h1, h2, -⟩ :=
    (C5_restart_sweep [errorBotLow] [] [] errorBotLow 0 rfl rfl).1 (by decide)
  have h3 :=
    (C5_restart_sweep [errorBotHigh] [] [] errorBotHigh 0 rfl rfl).2 (by decide)
  exact ⟨by simpa using h1, h2, by simpa using h3⟩

end Ladybug

namespace Ladybug

/-! ## C6: orphan cleanup performs no registry release -/

/-- C6 counterexample: the idle bot 25 hours stale is deleted by the orphan
sweep, yet the registry is returned untouched — its node still shows
`activeBots = 1` where the claim requires the decrement to `0`. -/
theorem C6_counterexample :
    (cleanupOrphanedBots 100000000 [orphanIdleBot] orphanRegistry).1 = [] ∧
    (cleanupOrphanedBots 100000000 [orphanIdleBot] orphanRegistry).2
      = orphanRegistry ∧
    ∃ n ∈ (cleanupOrphanedBots 100000000 [orphanIdleBot] orphanRegistry).2,
      n.id = "server-1" ∧ n.activeBots = 1 := by
  refine ⟨by decide, rfl, ?_⟩
  refine ⟨_, List.mem_cons_self _ _, rfl, rfl⟩

/-- C6 (amended): the orphan sweep removes exactly the bots whose
`lastActive` is older than 24 hours and whose status is `error` or `idle`
(each is stopped, then deleted from the store), keeps every other bot — in
particular one only 1 hour stale — and never calls the registry's release:
the node counters pass through unchanged. -/
theorem C6_cleanup_no_release (now : Int) (store : List Bot) (reg : Registry) :
    (cleanupOrphanedBots now store reg).2 = reg ∧
    (∀ b ∈ store, isOrphaned now b = true →
       b ∉ (cleanupOrphanedBots now store reg).1) ∧
    (∀ b ∈ store, isOrphaned now b = false →
       b ∈ (cleanupOrphanedBots now store reg).1) ∧
    (∀ b ∈ store, b.lastActive = now - 60 * 60 * 1000 →
       isOrphaned now b = false) := by
  refine ⟨rfl, ?_, ?_, ?_⟩
  · intro b _ horph hmem
    have := (List.mem_filter.mp hmem).2
    simp [horph] at this
  · intro b hb hno
    exact List.mem_filter.mpr ⟨hb, by simp [hno]⟩
  · intro b _ hla
    have hlt : ¬(now - 60 * 60 * 1000 < now - 24 * 60 * 60 * 1000) := by omega
    simp [isOrphaned, hla, hlt]

/-- Witness for C6 (amended): with one orphan and one fresh idle bot, the
sweep drops the orphan, keeps the fresh bot and the registry. -/
theorem C6_cleanup_no_release_witness :
    (cleanupOrphanedBots 100000000 [orphanIdleBot, freshIdleBot]
        orphanRegistry).2 = orphanRegistry ∧
    orphanIdleBot ∉ (cleanupOrphanedBots 100000000
        [orphanIdleBot, freshIdleBot] orphanRegistry).1 ∧
    freshIdleBot ∈ (cleanupOrphanedBots 100000000
        [orphanIdleBot, freshIdleBot] orphanRegistry).1 := by
  have h := C6_cleanup_no_release 100000000 [orphanIdleBot, freshIdleBot]
    orphanRegistry
  refine ⟨h.1, h.2.1 orphanIdleBot (by simp) (by decide), ?_⟩
  exact h.2.2.1 freshIdleBot (by simp)
    (h.2.2.2 freshIdleBot (by simp) (by decide))

/-! ## C7: restart persistence failures -/

/-- C7 counterexample: a store failure at the delayed completion step is not
caught — the unhandled rejection terminates the controller process instead
of degrading the bot to `error`. -/
theorem C7_counterexample :
    restartCompletionWithSave false 0 restartingBot
      = CompletionOutcome.processExited := rfl

/-- C7 (amended): a store failure at the restart's begin step is caught and
commits `error` with the error counter bumped; but a store failure at the
delayed completion step is not caught — the unhandled-rejection handler
exits the process (`process.exit(1)`), leaving the bot stored as
`starting`; a successful completion commits `running`. -/
theorem C7_restart_failure_paths (b : Bot) (now : Int) :
    restartBotWithSave false b
      = RestartOutcome.degraded
          { b with status := "error",
                   metrics := { b.metrics with
                                  errors := b.metrics.errors + 1 } } ∧
    restartBotWithSave true b
      = RestartOutcome.scheduled { b with status := "starting" } ∧
    restartCompletionWithSave false now b = CompletionOutcome.processExited ∧
    restartCompletionWithSave true now b
      = CompletionOutcome.committed
          { b with status := "running", lastActive := now } :=
  ⟨rfl, rfl, rfl, rfl⟩

/-- Witness for C7 (amended) at a concrete bot. -/
theorem C7_restart_failure_paths_witness :
    restartBotWithSave false errorBotLow
      = RestartOutcome.degraded
          { errorBotLow with
              status := "error",
              metrics := { errorBotLow.metrics with
                             errors := errorBotLow.metrics.errors + 1 } } ∧
    restartCompletionWithSave true 7 errorBotLow
      = CompletionOutcome.committed
          { errorBotLow with status := "running", lastActive := 7 } :=
  ⟨(C7_restart_failure_paths errorBotLow 7).1,
   (C7_restart_failure_paths errorBotLow 7).2.2.2⟩

/-! ## C8: the completion step races deletes and stops -/

/-- C8 counterexample: a bot explicitly stopped during the restart delay is
overwritten back to `running` by the pending completion — the completion is
not aborted. -/
theorem C8_counterexample :
    stoppedDuringDelay.status = "stopped" ∧
    (restartCompletionStep 5 restartingBot [stoppedDuringDelay]).map Bot.status
      = ["running"] := by
  constructor
  · rfl
  · rfl

/-- C8 (amended): the completion step performs no re-read and no abort
check: it writes the cached document with status `running` over every store
entry with the same id — including one explicitly stopped during the delay —
and only when the bot was deleted (no entry carries its id) does the write
leave the store unchanged. -/
theorem C8_no_reread (now : Int) (cached : Bot) (store : List Bot) :
    (∀ x ∈ store, x.id = cached.id →
       { cached with status := "running", lastActive := now }
         ∈ restartCompletionStep now cached store) ∧
    ((∀ x ∈ store, x.id ≠ cached.id) →
       restartCompletionStep now cached store = store) := by
  constructor
  · intro x hx hxid
    refine List.mem_map.mpr ⟨x, hx, ?_⟩
    simp [hxid]
  · intro hall
    unfold restartCompletionStep saveById
    rw [List.map_congr_left, List.map_id]
    intro x hx
    simp [hall x hx]

/-- Witness for C8 (amended): the stopped bot's entry is overwritten to
`running`; a store without the bot's id is unchanged. -/
theorem C8_no_reread_witness :
    { restartingBot with status := "running", lastActive := 5 }
      ∈ restartCompletionStep 5 restartingBot [stoppedDuringDelay] ∧
    restartCompletionStep 5 restartingBot [freshIdleBot] = [freshIdleBot] := by
  have h := C8_no_reread 5 restartingBot [stoppedDuringDelay]
  have h' := C8_no_reread 5 restartingBot [freshIdleBot]
  refine ⟨?_, h'.2 ?_⟩
  · have := h.1 stoppedDuringDelay (List.mem_cons_self _ _) rfl
    simpa using this
  · intro x hx
    rcases List.mem_singleton.mp hx with rfl
    decide

end Ladybug

namespace Ladybug

/-! ## C9: aggregate health sweep -/

/-- C9: the aggregate sweep computes the per-status counts, always forwards
the stats to the metrics sink, and emits an alert exactly when there is at
least one bot and the error share strictly exceeds one half. -/
theorem C9_aggregate_health (store : List Bot) :
    (performHealthCheck store).metricsSent = true ∧
    (performHealthCheck store).stats.total = store.length ∧
    (performHealthCheck store).stats.running
      = store.countP (fun b => b.status == "running") ∧
    (performHealthCheck store).stats.error
      = store.countP (fun b => b.status == "error") ∧
    (performHealthCheck store).stats.idle
      = store.countP (fun b => b.status == "idle") ∧
    (performHealthCheck store).stats.starting
      = store.countP (fun b => b.status == "starting") ∧
    ((performHealthCheck store).alertSent = true ↔
       0 < (computeStats store).total ∧
       ((computeStats store).error : ℚ) / ((computeStats store).total : ℚ)
         > 1 / 2) := by
  refine ⟨rfl, rfl, (List.countP_eq_length_filter _ _).symm,
    (List.countP_eq_length_filter _ _).symm,
    (List.countP_eq_length_filter _ _).symm,
    (List.countP_eq_length_filter _ _).symm, ?_⟩
  simp only [performHealthCheck, errorShare, decide_eq_true_eq]
  constructor
  · intro h
    refine ⟨?_, h⟩
    by_contra h0
    have ht : (computeStats store).total = 0 := Nat.eq_zero_of_not_pos h0
    rw [ht] at h
    norm_num at h
  · exact fun h => h.2

/-- Witness for C9: a two-bot store where both bots are in error alerts and
still forwards metrics. -/
theorem C9_aggregate_health_witness :
    (performHealthCheck [errorBotLow, errorBotHigh]).metricsSent = true ∧
    (performHealthCheck [errorBotLow, errorBotHigh]).alertSent = true := by
  have h := C9_aggregate_health [errorBotLow, errorBotHigh]
  refine ⟨h.1, h.2.2.2.2.2.2.mpr ⟨by decide, ?_⟩⟩
  show (1 : ℚ) / 2 < ((computeStats [errorBotLow, errorBotHigh]).error : ℚ)
    / ((computeStats [errorBotLow, errorBotHigh]).total : ℚ)
  have he : (computeStats [errorBotLow, errorBotHigh]).error = 2 := by decide
  have ht : (computeStats [errorBotLow, errorBotHigh]).total = 2 := by decide
  rw [he, ht]
  simp only [Rat.div_def, Rat.mul_def, Rat.inv_def, Nat.cast_ofNat]
  decide

/-! ## C10: web bots without a target url -/

/-- C10: a web bot whose config is absent or has no `targetUrl` is judged
healthy, and the probe path is empty — no HTTP request is made. -/
theorem C10_web_without_url (probe : String → Option Int) (now : Int) (b : Bot)
    (hweb : b.type = "web")
    (hcfg : b.config = none ∨
       ∃ cfg, b.config = some cfg ∧ cfg.targetUrl = none) :
    checkBotHealth probe now b = true ∧ webProbeUrls b = [] := by
  have hwb : checkWebBot probe b = true ∧ webProbeUrls b = [] := by
    rcases hcfg with h | ⟨cfg, h1, h2⟩
    · simp [checkWebBot, webProbeUrls, h]
    · simp [checkWebBot, webProbeUrls, h1, h2]
  refine ⟨?_, hwb.2⟩
  simp [checkBotHealth, hweb, hwb.1]

/-- Witness for C10: the config-less web bot is healthy even when the probe
would answer 503, and probes nothing. -/
theorem C10_web_without_url_witness :
    checkBotHealth (fun _ => some 503) 0 exampleWebBotNoUrl = true ∧
    webProbeUrls exampleWebBotNoUrl = [] :=
  C10_web_without_url (fun _ => some 503) 0 exampleWebBotNoUrl rfl (Or.inl rfl)

end Ladybug
